import Mathlib

/-!
Shallow embedding of the estimation engine of the llm-cost-estimator
repository (src/src/estimator/estimator.ts) in Lean 4, over exact rational
arithmetic.  Every definition mirrors the corresponding TypeScript function;
JavaScript numbers are modelled by ℚ (the formulas are closed-form rational
arithmetic), fallible entry points return `Except String`, and optional
arguments/fields are modelled by `Option` with the source's defaulting
applied inside the function body, exactly where the TypeScript
destructuring defaults apply.
-/

/-- `PrecisionBits = 4 | 8 | 16 | 32` from estimator.ts. -/
inductive PrecisionBits
  | p4
  | p8
  | p16
  | p32
deriving DecidableEq, Repr

/-- Numeric value of a `PrecisionBits`. -/
def PrecisionBits.bits : PrecisionBits → ℚ
  | .p4 => 4
  | .p8 => 8
  | .p16 => 16
  | .p32 => 32

/-- `ExecutionMode = 'inference' | 'training'`. -/
inductive ExecutionMode
  | inference
  | training
deriving DecidableEq, Repr

/-- `OptimizerType = 'none' | 'adam' | 'adamw' | 'adafactor' | 'lamb'`. -/
inductive OptimizerType
  | none
  | adam
  | adamw
  | adafactor
  | lamb
deriving DecidableEq, Repr

/-- `MemoryEstimationInput` record from estimator.ts; optional fields are
`Option`, with the source's destructuring defaults applied inside
`estimateMemory`. -/
structure MemoryEstimationInput where
  parameterCount : ℚ
  weightPrecisionBits : PrecisionBits
  mode : ExecutionMode
  hiddenSize : ℚ
  numLayers : ℚ
  sequenceLength : ℚ
  batchSize : ℚ
  kvCachePrecisionBits : Option PrecisionBits
  activationMultiplierOverride : Option ℚ
  optimizer : Option OptimizerType
  overheadFactor : Option ℚ
deriving DecidableEq, Repr

/-- `MemoryBreakdown` record from estimator.ts. -/
structure MemoryBreakdown where
  weightsGB : ℚ
  activationsGB : ℚ
  kvCacheGB : ℚ
  optimizerGB : ℚ
  baseTotalGB : ℚ
  overheadGB : ℚ
  totalGB : ℚ
deriving DecidableEq, Repr

/-- `CloudInstanceCostInput` record from estimator.ts. -/
structure CloudInstanceCostInput where
  hourlyRate : ℚ
  durationHours : ℚ
deriving DecidableEq, Repr

/-- `CloudCostEstimate` record from estimator.ts. -/
structure CloudCostEstimate where
  totalCost : ℚ
  hourlyRate : ℚ
  durationHours : ℚ
deriving DecidableEq, Repr

/-- One entry of the static GPU table (`gpus.json`): the fields the engine
reads (`name`, `memory_gb`, `fp32_tflops`). -/
structure GpuRecord where
  name : String
  memory_gb : ℚ
  fp32_tflops : ℚ
deriving DecidableEq, Repr

/-- `RecommendedGpu` record from estimator.ts. -/
structure RecommendedGpu where
  name : String
  memoryGB : ℚ
  fp32TFlops : ℚ
  memoryHeadroomGB : ℚ
deriving DecidableEq, Repr

/-- `ArchitectureEstimate` record from estimator.ts. -/
structure ArchitectureEstimate where
  hiddenSize : ℚ
  numLayers : ℚ
  numHeads : ℚ
  intermediateSize : ℚ
deriving DecidableEq, Repr

/-- `TransformerConfig` record from estimator.ts. -/
structure TransformerConfig where
  vocabSize : ℚ
  hiddenSize : ℚ
  numLayers : ℚ
  numAttentionHeads : ℚ
  intermediateSize : Option ℚ
  numKeyValueHeads : Option ℚ
deriving DecidableEq, Repr

/-- `const BYTES_PER_GB = 1024 ** 3`. -/
def BYTES_PER_GB : ℚ := 1024 ^ 3

/-- `DEFAULT_ACTIVATION_MULTIPLIER = {inference: 0.2, training: 2}`. -/
def DEFAULT_ACTIVATION_MULTIPLIER : ExecutionMode → ℚ
  | .inference => 0.2
  | .training => 2

/-- `OPTIMIZER_MULTIPLIER = {none: 0, adam: 4, adamw: 4, lamb: 4, adafactor: 1.5}`. -/
def OPTIMIZER_MULTIPLIER : OptimizerType → ℚ
  | .none => 0
  | .adam => 4
  | .adamw => 4
  | .lamb => 4
  | .adafactor => 1.5

/-- `const DEFAULT_OVERHEAD = 1.15`. -/
def DEFAULT_OVERHEAD : ℚ := 1.15

/-- One entry of `LLAMA_STYLE_ARCHETYPES`; `Number.POSITIVE_INFINITY`
is modelled by `⊤ : WithTop ℚ`. -/
structure Archetype where
  maxBillions : WithTop ℚ
  hiddenSize : ℚ
  numLayers : ℚ

/-- The `LLAMA_STYLE_ARCHETYPES` table from estimator.ts. -/
def LLAMA_STYLE_ARCHETYPES : List Archetype :=
  [⟨(1.5 : ℚ), 2048, 24⟩,
   ⟨(3.5 : ℚ), 2560, 28⟩,
   ⟨(8 : ℚ), 4096, 32⟩,
   ⟨(16 : ℚ), 5120, 40⟩,
   ⟨(40 : ℚ), 6656, 60⟩,
   ⟨(80 : ℚ), 8192, 80⟩,
   ⟨⊤, 10240, 96⟩]

/-- `bitsToBytes(bits) = bits / 8`. -/
def bitsToBytes (b : PrecisionBits) : ℚ := b.bits / 8

/-- JavaScript `Math.round`: round half toward positive infinity. -/
def jsRound (x : ℚ) : ℤ := ⌊x + 1 / 2⌋

/-- `estimateLlamaStyleArchitecture` from estimator.ts.  The
`Number.isFinite` guard of the source has no effect over ℚ (every rational
is finite), so only `parameterCount <= 0` selects the zero branch. -/
def estimateLlamaStyleArchitecture (parameterCount : ℚ) : ArchitectureEstimate :=
  if parameterCount ≤ 0 then ⟨0, 0, 0, 0⟩
  else
    let paramsInBillions : ℚ := parameterCount / 10 ^ 9
    match LLAMA_STYLE_ARCHETYPES.find?
        (fun entry => decide ((paramsInBillions : WithTop ℚ) ≤ entry.maxBillions)) with
    | Option.none => ⟨0, 0, 0, 0⟩
    | Option.some archetype =>
        { hiddenSize := archetype.hiddenSize
          numLayers := archetype.numLayers
          numHeads := max 1 ((jsRound (archetype.hiddenSize / 128) : ℚ))
          intermediateSize := archetype.hiddenSize * 4 }

/-- `calculateWeightMemoryGB` from estimator.ts. -/
def calculateWeightMemoryGB (parameterCount : ℚ) (weightPrecisionBits : PrecisionBits) : ℚ :=
  if parameterCount ≤ 0 then 0
  else parameterCount * bitsToBytes weightPrecisionBits / BYTES_PER_GB

/-- `calculateActivationMemoryGB` from estimator.ts. -/
def calculateActivationMemoryGB (parameterCount : ℚ) (weightPrecisionBits : PrecisionBits)
    (mode : ExecutionMode) (activationMultiplierOverride : Option ℚ) : ℚ :=
  if parameterCount ≤ 0 then 0
  else
    let multiplier := activationMultiplierOverride.getD (DEFAULT_ACTIVATION_MULTIPLIER mode)
    calculateWeightMemoryGB parameterCount weightPrecisionBits * multiplier

/-- `calculateKvCacheMemoryGB` from estimator.ts. -/
def calculateKvCacheMemoryGB (sequenceLength batchSize numLayers hiddenSize : ℚ)
    (precisionBits : PrecisionBits) : ℚ :=
  if sequenceLength ≤ 0 ∨ batchSize ≤ 0 ∨ numLayers ≤ 0 ∨ hiddenSize ≤ 0 then 0
  else
    let bytesPerElement := bitsToBytes precisionBits
    let kvPerToken := 2 * numLayers * hiddenSize * bytesPerElement
    kvPerToken * sequenceLength * batchSize / BYTES_PER_GB

/-- `calculateOptimizerMemoryGB` from estimator.ts. -/
def calculateOptimizerMemoryGB (parameterCount : ℚ) (weightPrecisionBits : PrecisionBits)
    (optimizer : OptimizerType) : ℚ :=
  if parameterCount ≤ 0 then 0
  else
    parameterCount * bitsToBytes weightPrecisionBits * OPTIMIZER_MULTIPLIER optimizer
      / BYTES_PER_GB

/-- `estimateMemory` from estimator.ts.  The TypeScript destructuring
defaults (`optimizer = mode === 'training' ? 'adamw' : 'none'`,
`overheadFactor = DEFAULT_OVERHEAD`, `kvCachePrecisionBits ?? weightPrecisionBits`)
become `Option.getD`; the `throw` becomes `Except.error`. -/
def estimateMemory (input : MemoryEstimationInput) : Except String MemoryBreakdown :=
  if input.parameterCount < 0 then
    Except.error "parameterCount must be non-negative"
  else
    let optimizer := input.optimizer.getD
      (if input.mode = .training then .adamw else .none)
    let overheadFactor := input.overheadFactor.getD DEFAULT_OVERHEAD
    let weightsGB := calculateWeightMemoryGB input.parameterCount input.weightPrecisionBits
    let activationsGB := calculateActivationMemoryGB input.parameterCount
      input.weightPrecisionBits input.mode input.activationMultiplierOverride
    let kvCacheGB :=
      if input.mode = .inference then
        calculateKvCacheMemoryGB input.sequenceLength input.batchSize input.numLayers
          input.hiddenSize (input.kvCachePrecisionBits.getD input.weightPrecisionBits)
      else 0
    let optimizerGB :=
      if input.mode = .training then
        calculateOptimizerMemoryGB input.parameterCount input.weightPrecisionBits optimizer
      else 0
    let baseTotalGB := weightsGB + activationsGB + kvCacheGB + optimizerGB
    let overheadGB := baseTotalGB * (overheadFactor - 1)
    let totalGB := baseTotalGB + overheadGB
    Except.ok
      { weightsGB := weightsGB
        activationsGB := activationsGB
        kvCacheGB := kvCacheGB
        optimizerGB := optimizerGB
        baseTotalGB := baseTotalGB
        overheadGB := overheadGB
        totalGB := totalGB }

/-- `estimateCloudCost` from estimator.ts. -/
def estimateCloudCost (input : CloudInstanceCostInput) : Except String CloudCostEstimate :=
  if input.hourlyRate < 0 ∨ input.durationHours < 0 then
    Except.error "hourlyRate and durationHours must be non-negative"
  else
    Except.ok
      { hourlyRate := input.hourlyRate
        durationHours := input.durationHours
        totalCost := input.hourlyRate * input.durationHours }

/-- `recommendGpus` from estimator.ts.  The static `gpus.json` table the
source closes over is passed explicitly as `gpus`; map/filter/sort/slice
mirror the source pipeline (`.sort((a, b) => a.memoryHeadroomGB - b.memoryHeadroomGB)`
sorts ascending by headroom). -/
def recommendGpus (gpus : List GpuRecord) (requiredMemoryGB : ℚ) (maxResults : ℕ) :
    List RecommendedGpu :=
  if requiredMemoryGB ≤ 0 then []
  else
    ((((gpus.map (fun gpu =>
        RecommendedGpu.mk gpu.name gpu.memory_gb gpu.fp32_tflops
          (gpu.memory_gb - requiredMemoryGB))).filter
        (fun gpu => decide (0 ≤ gpu.memoryHeadroomGB))).mergeSort
        (fun a b => decide (a.memoryHeadroomGB ≤ b.memoryHeadroomGB))).take maxResults)

/-- `estimateTransformerParameters` from estimator.ts.  JavaScript
truthiness in `intermediateSize && intermediateSize > 0` means a missing or
non-positive intermediate size falls back to `hiddenSize * 4`. -/
def estimateTransformerParameters (config : TransformerConfig) : ℚ :=
  if config.vocabSize ≤ 0 ∨ config.hiddenSize ≤ 0 ∨ config.numLayers ≤ 0 ∨
      config.numAttentionHeads ≤ 0 then 0
  else
    let kvHeads := config.numKeyValueHeads.getD config.numAttentionHeads
    let kvHeadDim := config.hiddenSize / kvHeads
    let embeddingParams := config.vocabSize * config.hiddenSize
    let qkvParams := config.hiddenSize * config.hiddenSize +
      config.hiddenSize * kvHeadDim * kvHeads * 2
    let attentionOutputParams := config.hiddenSize * config.hiddenSize
    let attnParamsPerLayer := qkvParams + attentionOutputParams
    let effectiveIntermediate :=
      match config.intermediateSize with
      | Option.some i => if 0 < i then i else config.hiddenSize * 4
      | Option.none => config.hiddenSize * 4
    let mlpParamsPerLayer := config.hiddenSize * effectiveIntermediate * 2
    let normParamsPerLayer := config.hiddenSize * 2
    let layerParams := attnParamsPerLayer * 2 + mlpParamsPerLayer + normParamsPerLayer * 2
    embeddingParams + config.numLayers * layerParams

/-- `estimateInferenceTime` from estimator.ts: roofline model, max of
compute-bound and memory-bound time, scaled by the overhead factor. -/
def estimateInferenceTime (flops gpu_tflops num_params memory_bandwidth
    overhead_factor bytes_per_param : ℚ) : ℚ :=
  let gpu_flops_val := gpu_tflops * 10 ^ 12
  let compute_time := flops * 10 ^ 9 / gpu_flops_val
  let memory_bandwidth_bytes := memory_bandwidth * 1024 ^ 3
  let memory_time := num_params * bytes_per_param / memory_bandwidth_bytes
  max compute_time memory_time * overhead_factor

/-- `estimateTrainingCost` from estimator.ts. -/
def estimateTrainingCost (inference_gflops_per_sequence gpu_tflops num_params
    memory_bandwidth overhead_factor gpu_hourly_cost num_epochs dataset_size
    model_precision_bits : ℚ) : ℚ :=
  let training_gflops_per_sequence := inference_gflops_per_sequence * 3
  let model_precision_bytes := model_precision_bits / 8
  let gradient_precision_bytes := model_precision_bits / 8
  let optimizer_states_bytes := 8
  let bytes_per_param_training_effective :=
    model_precision_bytes + gradient_precision_bytes + optimizer_states_bytes
  let time_per_item := estimateInferenceTime training_gflops_per_sequence gpu_tflops
    num_params memory_bandwidth overhead_factor bytes_per_param_training_effective
  let total_time := time_per_item * dataset_size * num_epochs
  let total_time_hours := total_time / 3600
  total_time_hours * gpu_hourly_cost

/-! ## Helper lemmas -/

lemma bitsToBytes_nonneg (b : PrecisionBits) : 0 ≤ bitsToBytes b := by
  cases b <;> norm_num [bitsToBytes, PrecisionBits.bits]

lemma calculateWeightMemoryGB_nonneg (p : ℚ) (b : PrecisionBits) :
    0 ≤ calculateWeightMemoryGB p b := by
  unfold calculateWeightMemoryGB
  split
  · exact le_refl 0
  · have hb := bitsToBytes_nonneg b
    have hp : 0 ≤ p := le_of_not_le (by assumption)
    have hgb : (0 : ℚ) ≤ BYTES_PER_GB := by norm_num [BYTES_PER_GB]
    exact div_nonneg (mul_nonneg hp hb) hgb

/-! ## Claim theorems -/

/-- C1: `estimateInferenceTime(flops, gpuTFlops, numParams, memoryBandwidth,
overheadFactor, bytesPerParam)` returns `max(computeTime, memoryTime) * overheadFactor`
with `computeTime = flops*1e9/(gpuTFlops*1e12)` and
`memoryTime = numParams*bytesPerParam/(memoryBandwidth*1024^3)`; the maximum of
the two bounds (not their sum) is used, as the compute-bound and memory-bound
example instances confirm. -/
theorem estimateInferenceTime_roofline :
    (∀ flops gpu_tflops num_params memory_bandwidth overhead_factor bytes_per_param : ℚ,
      estimateInferenceTime flops gpu_tflops num_params memory_bandwidth
          overhead_factor bytes_per_param =
        max (flops * 10 ^ 9 / (gpu_tflops * 10 ^ 12))
          (num_params * bytes_per_param / (memory_bandwidth * 1024 ^ 3)) *
          overhead_factor) ∧
    estimateInferenceTime 2000 30 3000000000 500 1 2 =
      2000 * 10 ^ 9 / (30 * 10 ^ 12) ∧
    estimateInferenceTime 100 100 3000000000 60 1 2 =
      3000000000 * 2 / (60 * 1024 ^ 3) := by
  refine ⟨fun _ _ _ _ _ _ => rfl, ?_, ?_⟩
  · show max (2000 * 10 ^ 9 / (30 * 10 ^ 12))
        (3000000000 * 2 / (500 * 1024 ^ 3)) * 1 = _
    rw [max_eq_left (by norm_num)]
    norm_num
  · show max (100 * 10 ^ 9 / (100 * 10 ^ 12))
        (3000000000 * 2 / (60 * 1024 ^ 3)) * 1 = _
    rw [max_eq_right (by norm_num)]
    norm_num

/-- C6: `estimateTrainingCost` equals the inference-time roofline applied to
3× the inference GFLOPs with effective bytes-per-parameter
`bits/8 + bits/8 + 8`, multiplied by `datasetSize * numEpochs`, divided by
3600, and multiplied by the GPU hourly cost. -/
theorem estimateTrainingCost_eq (inference_gflops gpu_tflops num_params
    memory_bandwidth overhead_factor gpu_hourly_cost num_epochs dataset_size
    model_precision_bits : ℚ) :
    estimateTrainingCost inference_gflops gpu_tflops num_params memory_bandwidth
        overhead_factor gpu_hourly_cost num_epochs dataset_size model_precision_bits =
      estimateInferenceTime (inference_gflops * 3) gpu_tflops num_params
          memory_bandwidth overhead_factor
          (model_precision_bits / 8 + model_precision_bits / 8 + 8) *
        dataset_size * num_epochs / 3600 * gpu_hourly_cost := rfl

/-- C8: with no override and the default multipliers (2.0 for training,
0.2 for inference), training activation memory is exactly 10× inference
activation memory for every positive parameter count and precision. -/
theorem calculateActivationMemoryGB_training_ratio (p : ℚ) (b : PrecisionBits)
    (hp : 0 < p) :
    calculateActivationMemoryGB p b .training Option.none =
      10 * calculateActivationMemoryGB p b .inference Option.none := by
  unfold calculateActivationMemoryGB
  rw [if_neg (not_le.mpr hp), if_neg (not_le.mpr hp)]
  simp only [Option.getD_none, DEFAULT_ACTIVATION_MULTIPLIER]
  ring_nf

/-- Witness for C8 at `p = 1`, 16-bit precision. -/
theorem calculateActivationMemoryGB_training_ratio_witness :
    calculateActivationMemoryGB 1 .p16 .training Option.none =
      10 * calculateActivationMemoryGB 1 .p16 .inference Option.none :=
  calculateActivationMemoryGB_training_ratio 1 .p16 (by norm_num)

/-- C9: `estimateCloudCost` signals an invalid-input error exactly when
`hourlyRate < 0` or `durationHours < 0`, and otherwise returns a record with
`totalCost = hourlyRate * durationHours` and both inputs echoed unchanged. -/
theorem estimateCloudCost_spec (input : CloudInstanceCostInput) :
    ((∃ e, estimateCloudCost input = Except.error e) ↔
      input.hourlyRate < 0 ∨ input.durationHours < 0) ∧
    (0 ≤ input.hourlyRate → 0 ≤ input.durationHours →
      estimateCloudCost input =
        Except.ok ⟨input.hourlyRate * input.durationHours,
          input.hourlyRate, input.durationHours⟩) := by
  unfold estimateCloudCost
  constructor
  · constructor
    · rintro ⟨e, he⟩
      by_contra hneg
      rw [if_neg hneg] at he
      exact Except.noConfusion he
    · intro hneg
      rw [if_pos hneg]
      exact ⟨_, rfl⟩
  · intro h1 h2
    rw [if_neg (by push_neg; exact ⟨h1, h2⟩)]

/-- Witness for C9: `estimateCloudCost({hourlyRate: 3.06, durationHours: 2})`
returns `totalCost = 6.12`. -/
theorem estimateCloudCost_spec_witness :
    estimateCloudCost ⟨3.06, 2⟩ = Except.ok ⟨6.12, 3.06, 2⟩ := by
  have h := (estimateCloudCost_spec ⟨3.06, 2⟩).2 (by norm_num) (by norm_num)
  norm_num at h ⊢
  exact h

lemma gqa_kv_term (h k : ℚ) (hk : k ≠ 0) : h * (h / k) * k * 2 = h * h * 2 := by
  field_simp

/-- C10: `estimateTransformerParameters` does not depend on
`numKeyValueHeads`: for any config with two positive key/value head counts
(or the field omitted), the returned parameter count is identical, because
`hiddenSize * (hiddenSize/kvHeads) * kvHeads * 2 = 2 * hiddenSize^2` for
every nonzero kvHeads. -/
theorem estimateTransformerParameters_kv_independent (config : TransformerConfig)
    (k1 k2 : ℚ) (h1 : 0 < k1) (h2 : 0 < k2) :
    estimateTransformerParameters {config with numKeyValueHeads := Option.some k1} =
      estimateTransformerParameters {config with numKeyValueHeads := Option.some k2} ∧
    estimateTransformerParameters {config with numKeyValueHeads := Option.some k1} =
      estimateTransformerParameters {config with numKeyValueHeads := Option.none} := by
  obtain ⟨v, h, l, a, i, kv⟩ := config
  by_cases hg : v ≤ 0 ∨ h ≤ 0 ∨ l ≤ 0 ∨ a ≤ 0
  · constructor <;> simp [estimateTransformerParameters, hg]
  · have ha : a ≠ 0 := by
      push_neg at hg
      exact ne_of_gt hg.2.2.2
    constructor <;>
      simp only [estimateTransformerParameters, if_neg hg, Option.getD_some,
        Option.getD_none] <;>
      rw [gqa_kv_term h k1 (ne_of_gt h1)] <;>
      first
        | rw [gqa_kv_term h k2 (ne_of_gt h2)]
        | rw [gqa_kv_term h a ha]

/-- Witness for C10 at a concrete Llama-7B-like config with kv heads 8 vs 32
vs omitted. -/
theorem estimateTransformerParameters_kv_independent_witness :
    estimateTransformerParameters ⟨32000, 4096, 32, 32, Option.none, Option.some 8⟩ =
      estimateTransformerParameters ⟨32000, 4096, 32, 32, Option.none, Option.some 32⟩ ∧
    estimateTransformerParameters ⟨32000, 4096, 32, 32, Option.none, Option.some 8⟩ =
      estimateTransformerParameters ⟨32000, 4096, 32, 32, Option.none, Option.none⟩ :=
  estimateTransformerParameters_kv_independent
    ⟨32000, 4096, 32, 32, Option.none, Option.none⟩ 8 32 (by norm_num) (by norm_num)

/-- C2: for `parameterCount ≥ 0`, `estimateMemory` returns a breakdown whose
`kvCacheGB` is 0 in training mode and whose `optimizerGB` is 0 in inference
mode, and when the `optimizer` field is absent it behaves exactly as with
`adamw` in training mode and `none` in inference mode. -/
theorem estimateMemory_mode_defaults (input : MemoryEstimationInput)
    (hpc : 0 ≤ input.parameterCount) :
    ∃ b, estimateMemory input = Except.ok b ∧
      (input.mode = .training → b.kvCacheGB = 0) ∧
      (input.mode = .inference → b.optimizerGB = 0) ∧
      (input.optimizer = Option.none → input.mode = .training →
        estimateMemory input =
          estimateMemory {input with optimizer := Option.some .adamw}) ∧
      (input.optimizer = Option.none → input.mode = .inference →
        estimateMemory input =
          estimateMemory {input with optimizer := Option.some .none}) := by
  obtain ⟨pc, wb, mode, hs, nl, sl, bs, kvp, amo, opt, ovf⟩ := input
  have hnot : ¬(pc < 0) := not_lt.mpr hpc
  simp only [estimateMemory, hnot, if_false, ite_false, if_neg hnot]
  refine ⟨_, rfl, ?_, ?_, ?_, ?_⟩
  · intro hm
    cases hm
    simp
  · intro hm
    cases hm
    simp
  · intro hopt hm
    cases hopt
    cases hm
    simp
  · intro hopt hm
    cases hopt
    cases hm
    simp

/-- Witness for C2 at a concrete training-mode input with the optimizer
field absent. -/
theorem estimateMemory_mode_defaults_witness :
    ∃ b, estimateMemory ⟨1, .p16, .training, 2, 3, 4, 5, Option.none, Option.none,
          Option.none, Option.none⟩ = Except.ok b ∧
      (ExecutionMode.training = .training → b.kvCacheGB = 0) ∧
      (ExecutionMode.training = .inference → b.optimizerGB = 0) ∧
      ((Option.none : Option OptimizerType) = Option.none →
        ExecutionMode.training = .training →
        estimateMemory ⟨1, .p16, .training, 2, 3, 4, 5, Option.none, Option.none,
            Option.none, Option.none⟩ =
          estimateMemory ⟨1, .p16, .training, 2, 3, 4, 5, Option.none, Option.none,
            Option.some .adamw, Option.none⟩) ∧
      ((Option.none : Option OptimizerType) = Option.none →
        ExecutionMode.training = .inference →
        estimateMemory ⟨1, .p16, .training, 2, 3, 4, 5, Option.none, Option.none,
            Option.none, Option.none⟩ =
          estimateMemory ⟨1, .p16, .training, 2, 3, 4, 5, Option.none, Option.none,
            Option.some .none, Option.none⟩) :=
  estimateMemory_mode_defaults
    ⟨1, .p16, .training, 2, 3, 4, 5, Option.none, Option.none, Option.none,
      Option.none⟩ (by norm_num)

lemma OPTIMIZER_MULTIPLIER_nonneg (o : OptimizerType) : 0 ≤ OPTIMIZER_MULTIPLIER o := by
  cases o <;> norm_num [OPTIMIZER_MULTIPLIER]

lemma DEFAULT_ACTIVATION_MULTIPLIER_nonneg (m : ExecutionMode) :
    0 ≤ DEFAULT_ACTIVATION_MULTIPLIER m := by
  cases m <;> norm_num [DEFAULT_ACTIVATION_MULTIPLIER]

lemma BYTES_PER_GB_nonneg : (0 : ℚ) ≤ BYTES_PER_GB := by
  norm_num [BYTES_PER_GB]

lemma calculateActivationMemoryGB_nonneg (p : ℚ) (b : PrecisionBits) (m : ExecutionMode)
    (o : Option ℚ) (ho : ∀ x ∈ o, 0 ≤ x) : 0 ≤ calculateActivationMemoryGB p b m o := by
  unfold calculateActivationMemoryGB
  split
  · exact le_refl 0
  · refine mul_nonneg (calculateWeightMemoryGB_nonneg p b) ?_
    cases o with
    | none => simpa using DEFAULT_ACTIVATION_MULTIPLIER_nonneg m
    | some x => simpa using ho x (by simp)

lemma calculateKvCacheMemoryGB_nonneg (s bt nl hs : ℚ) (pb : PrecisionBits) :
    0 ≤ calculateKvCacheMemoryGB s bt nl hs pb := by
  unfold calculateKvCacheMemoryGB
  split
  · exact le_refl 0
  · next h =>
      push_neg at h
      obtain ⟨h1, h2, h3, h4⟩ := h
      have hb := bitsToBytes_nonneg pb
      exact div_nonneg
        (mul_nonneg (mul_nonneg (mul_nonneg (mul_nonneg
          (mul_nonneg (by norm_num : (0 : ℚ) ≤ 2) h3.le) h4.le) hb) h1.le) h2.le)
        BYTES_PER_GB_nonneg

lemma calculateOptimizerMemoryGB_nonneg (p : ℚ) (b : PrecisionBits) (o : OptimizerType) :
    0 ≤ calculateOptimizerMemoryGB p b o := by
  unfold calculateOptimizerMemoryGB
  split
  · exact le_refl 0
  · next h =>
      have hp : 0 ≤ p := le_of_not_le h
      exact div_nonneg
        (mul_nonneg (mul_nonneg hp (bitsToBytes_nonneg b)) (OPTIMIZER_MULTIPLIER_nonneg o))
        BYTES_PER_GB_nonneg

/-- C3 counterexample: with `activationMultiplierOverride = -1` (an accepted
input: `estimateMemory` validates only `parameterCount`), the returned
breakdown has a negative `activationsGB`, so "every field of the record is
≥ 0 for all accepted inputs" fails.  Here `parameterCount = 2^30` at 8-bit
precision gives `weightsGB = 1` and `activationsGB = -1`. -/
theorem estimateMemory_negative_field_counterexample :
    estimateMemory ⟨2 ^ 30, .p8, .inference, 0, 0, 0, 0, Option.none,
        Option.some (-1), Option.none, Option.none⟩ =
      Except.ok ⟨1, -1, 0, 0, 0, 0, 0⟩ ∧ ¬(0 : ℚ) ≤ -1 := by
  constructor
  · norm_num [estimateMemory, calculateWeightMemoryGB, calculateActivationMemoryGB,
      calculateKvCacheMemoryGB, calculateOptimizerMemoryGB, bitsToBytes,
      PrecisionBits.bits, BYTES_PER_GB, DEFAULT_OVERHEAD]
    all_goals simp [OPTIMIZER_MULTIPLIER]
  · norm_num

/-- C3 (amended): for `parameterCount ≥ 0`, the breakdown satisfies
`baseTotalGB = weightsGB + activationsGB + kvCacheGB + optimizerGB`,
`overheadGB = baseTotalGB * (overheadFactor - 1)` and
`totalGB = baseTotalGB * overheadFactor` (with `overheadFactor` defaulting to
`DEFAULT_OVERHEAD = 1.15`); and, provided the supplied
`activationMultiplierOverride` is nonnegative (or absent) and the supplied
`overheadFactor` is ≥ 1 (or absent), every field is ≥ 0. -/
theorem estimateMemory_invariants (input : MemoryEstimationInput)
    (hpc : 0 ≤ input.parameterCount)
    (hamo : ∀ m ∈ input.activationMultiplierOverride, 0 ≤ m)
    (hovf : ∀ f ∈ input.overheadFactor, 1 ≤ f) :
    ∃ b, estimateMemory input = Except.ok b ∧
      b.baseTotalGB = b.weightsGB + b.activationsGB + b.kvCacheGB + b.optimizerGB ∧
      b.overheadGB = b.baseTotalGB * (input.overheadFactor.getD DEFAULT_OVERHEAD - 1) ∧
      b.totalGB = b.baseTotalGB * input.overheadFactor.getD DEFAULT_OVERHEAD ∧
      0 ≤ b.weightsGB ∧ 0 ≤ b.activationsGB ∧ 0 ≤ b.kvCacheGB ∧ 0 ≤ b.optimizerGB ∧
      0 ≤ b.baseTotalGB ∧ 0 ≤ b.overheadGB ∧ 0 ≤ b.totalGB := by
  obtain ⟨pc, wb, mode, hs, nl, sl, bs, kvp, amo, opt, ovf⟩ := input
  simp only at hpc hamo hovf
  have hnot : ¬(pc < 0) := not_lt.mpr hpc
  have hf : 1 ≤ ovf.getD DEFAULT_OVERHEAD := by
    cases ovf with
    | none => norm_num [DEFAULT_OVERHEAD]
    | some f => simpa using hovf f (by simp)
  have hw := calculateWeightMemoryGB_nonneg pc wb
  have ha := calculateActivationMemoryGB_nonneg pc wb mode amo hamo
  have hkv : 0 ≤ (if mode = .inference then
      calculateKvCacheMemoryGB sl bs nl hs (kvp.getD wb) else 0) := by
    split
    · exact calculateKvCacheMemoryGB_nonneg sl bs nl hs (kvp.getD wb)
    · exact le_refl 0
  have hop : 0 ≤ (if mode = .training then
      calculateOptimizerMemoryGB pc wb
        (opt.getD (if mode = .training then .adamw else .none)) else 0) := by
    split
    · exact calculateOptimizerMemoryGB_nonneg pc wb _
    · exact le_refl 0
  have hbase : 0 ≤ calculateWeightMemoryGB pc wb +
      calculateActivationMemoryGB pc wb mode amo +
      (if mode = .inference then
        calculateKvCacheMemoryGB sl bs nl hs (kvp.getD wb) else 0) +
      (if mode = .training then
        calculateOptimizerMemoryGB pc wb
          (opt.getD (if mode = .training then .adamw else .none)) else 0) :=
    add_nonneg (add_nonneg (add_nonneg hw ha) hkv) hop
  simp only [estimateMemory, if_neg hnot]
  refine ⟨_, rfl, rfl, rfl, by ring, hw, ha, hkv, hop, hbase, ?_, ?_⟩
  · exact mul_nonneg hbase (by linarith)
  · dsimp only
    have := mul_nonneg hbase (by linarith : (0 : ℚ) ≤ ovf.getD DEFAULT_OVERHEAD - 1)
    linarith

/-- Witness for C3 (amended) at a concrete inference input with all optional
fields absent. -/
theorem estimateMemory_invariants_witness :
    ∃ b, estimateMemory ⟨2 ^ 30, .p8, .inference, 4, 2, 8, 1, Option.none,
          Option.none, Option.none, Option.none⟩ = Except.ok b ∧
      b.baseTotalGB = b.weightsGB + b.activationsGB + b.kvCacheGB + b.optimizerGB ∧
      b.overheadGB = b.baseTotalGB *
        ((Option.none : Option ℚ).getD DEFAULT_OVERHEAD - 1) ∧
      b.totalGB = b.baseTotalGB * (Option.none : Option ℚ).getD DEFAULT_OVERHEAD ∧
      0 ≤ b.weightsGB ∧ 0 ≤ b.activationsGB ∧ 0 ≤ b.kvCacheGB ∧ 0 ≤ b.optimizerGB ∧
      0 ≤ b.baseTotalGB ∧ 0 ≤ b.overheadGB ∧ 0 ≤ b.totalGB :=
  estimateMemory_invariants
    ⟨2 ^ 30, .p8, .inference, 4, 2, 8, 1, Option.none, Option.none, Option.none,
      Option.none⟩ (by norm_num) (by simp) (by simp)

/-- C4: `estimateMemory` signals an invalid-input error exactly when
`parameterCount < 0`; for `parameterCount ≥ 0` it returns a complete
breakdown, with non-positive shape inputs contributing 0 to the
corresponding fields, and with `parameterCount = 0` and all shape
parameters 0 the breakdown is all-zero. -/
theorem estimateMemory_error_iff (input : MemoryEstimationInput) :
    ((∃ e, estimateMemory input = Except.error e) ↔ input.parameterCount < 0) ∧
    (0 ≤ input.parameterCount →
      ∃ b, estimateMemory input = Except.ok b ∧
        (input.parameterCount = 0 →
          b.weightsGB = 0 ∧ b.activationsGB = 0 ∧ b.optimizerGB = 0) ∧
        (input.sequenceLength ≤ 0 ∨ input.batchSize ≤ 0 ∨ input.numLayers ≤ 0 ∨
            input.hiddenSize ≤ 0 → b.kvCacheGB = 0) ∧
        (input.parameterCount = 0 ∧ input.sequenceLength = 0 ∧ input.batchSize = 0 ∧
            input.numLayers = 0 ∧ input.hiddenSize = 0 →
          b = ⟨0, 0, 0, 0, 0, 0, 0⟩)) := by
  obtain ⟨pc, wb, mode, hs, nl, sl, bs, kvp, amo, opt, ovf⟩ := input
  constructor
  · by_cases hpc : pc < 0
    · simp only [estimateMemory]
      exact ⟨fun _ => hpc, fun h => ⟨_, by rw [if_pos h]⟩⟩
    · simp only [estimateMemory, if_neg hpc]
      exact ⟨fun ⟨e, he⟩ => Except.noConfusion he, fun h => absurd h hpc⟩
  · intro hpc
    have hnot : ¬(pc < 0) := not_lt.mpr hpc
    simp only [estimateMemory, if_neg hnot]
    refine ⟨_, rfl, ?_, ?_, ?_⟩
    · intro h0
      subst h0
      refine ⟨?_, ?_, ?_⟩
      · simp [calculateWeightMemoryGB]
      · simp [calculateActivationMemoryGB]
      · dsimp only
        split
        · simp [calculateOptimizerMemoryGB]
        · rfl
    · intro hshape
      have hk : calculateKvCacheMemoryGB sl bs nl hs (kvp.getD wb) = 0 := by
        unfold calculateKvCacheMemoryGB
        rw [if_pos hshape]
      show (if mode = .inference then _ else 0) = 0
      split
      · exact hk
      · rfl
    · rintro ⟨h1, h2, h3, h4, h5⟩
      subst h1; subst h2; subst h3; subst h4; subst h5
      have hk : calculateKvCacheMemoryGB 0 0 0 0 (kvp.getD wb) = 0 := by
        unfold calculateKvCacheMemoryGB
        rw [if_pos (by norm_num)]
      simp [calculateWeightMemoryGB, calculateActivationMemoryGB,
        calculateOptimizerMemoryGB, hk]

/-- Witness for C4 at the all-zero input in inference mode. -/
theorem estimateMemory_error_iff_witness :
    estimateMemory ⟨0, .p16, .inference, 0, 0, 0, 0, Option.none, Option.none,
        Option.none, Option.none⟩ = Except.ok ⟨0, 0, 0, 0, 0, 0, 0⟩ := by
  obtain ⟨b, hb, -, -, hzero⟩ :=
    (estimateMemory_error_iff ⟨0, .p16, .inference, 0, 0, 0, 0, Option.none,
        Option.none, Option.none, Option.none⟩).2 (by norm_num)
  rw [hb, hzero (by norm_num)]

/-- C5: for every GPU table, `recommendGpus(requiredMemoryGB, n)` returns
only annotated table entries with `memoryHeadroomGB = memoryGB -
requiredMemoryGB ≥ 0`, sorted ascending by headroom, with length at most
`n`, and it is empty whenever `requiredMemoryGB ≤ 0`. -/
theorem recommendGpus_spec (gpus : List GpuRecord) (required : ℚ) (n : ℕ) :
    (∀ g ∈ recommendGpus gpus required n, 0 ≤ g.memoryHeadroomGB ∧
      ∃ src ∈ gpus, g = RecommendedGpu.mk src.name src.memory_gb src.fp32_tflops
        (src.memory_gb - required)) ∧
    List.Sorted (fun a b : RecommendedGpu => a.memoryHeadroomGB ≤ b.memoryHeadroomGB)
      (recommendGpus gpus required n) ∧
    (recommendGpus gpus required n).length ≤ n ∧
    (required ≤ 0 → recommendGpus gpus required n = []) := by
  unfold recommendGpus
  by_cases hr : required ≤ 0
  · simp [hr]
  · rw [if_neg hr]
    set L1 := (gpus.map (fun gpu =>
      RecommendedGpu.mk gpu.name gpu.memory_gb gpu.fp32_tflops
        (gpu.memory_gb - required))).filter
      (fun gpu => decide (0 ≤ gpu.memoryHeadroomGB)) with hL1
    set r := fun a b : RecommendedGpu =>
      decide (a.memoryHeadroomGB ≤ b.memoryHeadroomGB) with hre
    have htrans : ∀ a b c : RecommendedGpu,
        r a b = true → r b c = true → r a c = true := by
      intro a b c hab hbc
      simp only [hre, decide_eq_true_eq] at hab hbc ⊢
      exact le_trans hab hbc
    have htotal : ∀ a b : RecommendedGpu, (r a b || r b a) = true := by
      intro a b
      simp only [hre, Bool.or_eq_true, decide_eq_true_eq]
      exact le_total _ _
    have hsorted := List.sorted_mergeSort htrans htotal L1
    have hperm := List.mergeSort_perm L1 r
    refine ⟨?_, ?_, List.length_take_le n _, fun h => absurd h hr⟩
    · intro g hg
      have hg2 : g ∈ L1.mergeSort r := List.mem_of_mem_take hg
      have hg3 : g ∈ L1 := hperm.mem_iff.mp hg2
      obtain ⟨hmem0, hpred⟩ := List.mem_filter.mp hg3
      obtain ⟨src, hsrc, heq⟩ := List.mem_map.mp hmem0
      exact ⟨of_decide_eq_true hpred, src, hsrc, heq.symm⟩
    · exact List.Pairwise.imp (fun h => of_decide_eq_true h)
        (List.Pairwise.sublist (List.take_sublist n _) hsorted)

/-- Witness for C5: a two-entry table where one GPU is too small and the
other fits, and emptiness for a non-positive requirement. -/
theorem recommendGpus_spec_witness :
    recommendGpus [⟨"A", 24, 30⟩, ⟨"B", 80, 60⟩] 40 3 = [⟨"B", 80, 60, 40⟩] ∧
    recommendGpus [⟨"A", 24, 30⟩] (-1) 3 = [] := by
  constructor
  · rw [recommendGpus, if_neg (by norm_num)]
    norm_num [List.filter, List.mergeSort_singleton]
  · exact (recommendGpus_spec [⟨"A", 24, 30⟩] (-1) 3).2.2.2 (by norm_num)

lemma estimateLlamaStyleArchitecture_pos (p : ℚ) (hp : 0 < p) :
    estimateLlamaStyleArchitecture p =
      if p / 10 ^ 9 ≤ 1.5 then ⟨2048, 24, 16, 8192⟩
      else if p / 10 ^ 9 ≤ 3.5 then ⟨2560, 28, 20, 10240⟩
      else if p / 10 ^ 9 ≤ 8 then ⟨4096, 32, 32, 16384⟩
      else if p / 10 ^ 9 ≤ 16 then ⟨5120, 40, 40, 20480⟩
      else if p / 10 ^ 9 ≤ 40 then ⟨6656, 60, 52, 26624⟩
      else if p / 10 ^ 9 ≤ 80 then ⟨8192, 80, 64, 32768⟩
      else ⟨10240, 96, 80, 40960⟩ := by
  rw [estimateLlamaStyleArchitecture, if_neg (not_le.mpr hp)]
  simp only [LLAMA_STYLE_ARCHETYPES, List.find?, WithTop.coe_le_coe, le_top]
  by_cases h1 : p / 10 ^ 9 ≤ (1.5 : ℚ)
  · simp [h1, jsRound]
    norm_num
  by_cases h2 : p / 10 ^ 9 ≤ (3.5 : ℚ)
  · simp [h1, h2, jsRound]
    norm_num
  by_cases h3 : p / 10 ^ 9 ≤ (8 : ℚ)
  · simp [h1, h2, h3, jsRound]
    norm_num
  by_cases h4 : p / 10 ^ 9 ≤ (16 : ℚ)
  · simp [h1, h2, h3, h4, jsRound]
    norm_num
  by_cases h5 : p / 10 ^ 9 ≤ (40 : ℚ)
  · simp [h1, h2, h3, h4, h5, jsRound]
    norm_num
  by_cases h6 : p / 10 ^ 9 ≤ (80 : ℚ)
  · simp [h1, h2, h3, h4, h5, h6, jsRound]
    norm_num
  · simp [h1, h2, h3, h4, h5, h6, jsRound]
    norm_num


lemma llama_hiddenSize_pos (p : ℚ) (hp : 0 < p) :
    (estimateLlamaStyleArchitecture p).hiddenSize =
      if p / 10 ^ 9 ≤ 1.5 then 2048
      else if p / 10 ^ 9 ≤ 3.5 then 2560
      else if p / 10 ^ 9 ≤ 8 then 4096
      else if p / 10 ^ 9 ≤ 16 then 5120
      else if p / 10 ^ 9 ≤ 40 then 6656
      else if p / 10 ^ 9 ≤ 80 then 8192
      else 10240 := by
  rw [estimateLlamaStyleArchitecture_pos p hp]
  split_ifs <;> rfl

lemma llama_numLayers_pos (p : ℚ) (hp : 0 < p) :
    (estimateLlamaStyleArchitecture p).numLayers =
      if p / 10 ^ 9 ≤ 1.5 then 24
      else if p / 10 ^ 9 ≤ 3.5 then 28
      else if p / 10 ^ 9 ≤ 8 then 32
      else if p / 10 ^ 9 ≤ 16 then 40
      else if p / 10 ^ 9 ≤ 40 then 60
      else if p / 10 ^ 9 ≤ 80 then 80
      else 96 := by
  rw [estimateLlamaStyleArchitecture_pos p hp]
  split_ifs <;> rfl

set_option maxHeartbeats 1600000 in
/-- C7: `estimateLlamaStyleArchitecture` is monotone in the parameter count
(`hiddenSize` and `numLayers` nondecreasing for `0 < p1 ≤ p2`, strictly
larger at 70e9 than at 7e9) and returns the all-zero estimate whenever
`parameterCount ≤ 0`. -/
theorem estimateLlamaStyleArchitecture_monotone :
    (∀ p1 p2 : ℚ, 0 < p1 → p1 ≤ p2 →
      (estimateLlamaStyleArchitecture p1).hiddenSize ≤
        (estimateLlamaStyleArchitecture p2).hiddenSize ∧
      (estimateLlamaStyleArchitecture p1).numLayers ≤
        (estimateLlamaStyleArchitecture p2).numLayers) ∧
    ((estimateLlamaStyleArchitecture (7 * 10 ^ 9)).hiddenSize <
        (estimateLlamaStyleArchitecture (70 * 10 ^ 9)).hiddenSize ∧
      (estimateLlamaStyleArchitecture (7 * 10 ^ 9)).numLayers <
        (estimateLlamaStyleArchitecture (70 * 10 ^ 9)).numLayers) ∧
    (∀ p : ℚ, p ≤ 0 → estimateLlamaStyleArchitecture p = ⟨0, 0, 0, 0⟩) := by
  refine ⟨?_, ?_, ?_⟩
  · intro p1 p2 hp1 h12
    have hp2 : 0 < p2 := lt_of_lt_of_le hp1 h12
    have hd : p1 / 10 ^ 9 ≤ p2 / 10 ^ 9 :=
      (div_le_div_iff_of_pos_right (by norm_num)).mpr h12
    constructor
    · rw [llama_hiddenSize_pos p1 hp1, llama_hiddenSize_pos p2 hp2]
      split_ifs <;> linarith
    · rw [llama_numLayers_pos p1 hp1, llama_numLayers_pos p2 hp2]
      split_ifs <;> linarith
  · constructor
    · rw [llama_hiddenSize_pos _ (by norm_num), llama_hiddenSize_pos _ (by norm_num)]
      norm_num
    · rw [llama_numLayers_pos _ (by norm_num), llama_numLayers_pos _ (by norm_num)]
      norm_num
  · intro p hp
    rw [estimateLlamaStyleArchitecture, if_pos hp]

/-- Witness for C7: monotone step from 1e9 to 2e9 parameters, and the zero
estimate at a negative count. -/
theorem estimateLlamaStyleArchitecture_monotone_witness :
    (estimateLlamaStyleArchitecture (10 ^ 9)).hiddenSize ≤
      (estimateLlamaStyleArchitecture (2 * 10 ^ 9)).hiddenSize ∧
    estimateLlamaStyleArchitecture (-5) = ⟨0, 0, 0, 0⟩ :=
  ⟨(estimateLlamaStyleArchitecture_monotone.1 (10 ^ 9) (2 * 10 ^ 9) (by norm_num)
      (by norm_num)).1,
   estimateLlamaStyleArchitecture_monotone.2.2 (-5) (by norm_num)⟩
